import Mathlib

/-!
Verification development for the record cleansing and partitioning engine
of `src/main.py` (class `DataCleaner`).  The Python code is shallowly
embedded: pandas DataFrames become `List Row`, where each cell of the
loosely typed object columns is a `Cell` (missing value `na`, integer,
text, or an already-parsed list of strings).  Fallible steps return
`Except`.  Logging side effects that the claims talk about (warnings,
truncated invalid-id lists) are returned as extra components of the
corresponding functions.
-/

/-- One cell of a pandas object column: `na` models NaN/NaT missing
values, `int` an integer cell, `str` a text cell, `lst` a cell that
already holds a parsed list of strings (the state of `genres` /
`feat_track_ids` after `clean_data`). -/
inductive Cell where
  | na : Cell
  | int : Int → Cell
  | str : String → Cell
  | lst : List String → Cell
deriving DecidableEq

/-- One row of the snapshot, with the thirteen columns of the source
schema (`src/main.py` lines 84-97). -/
structure Row where
  dates : Cell
  ids : Cell
  names : Cell
  monthly_listeners : Cell
  popularity : Cell
  followers : Cell
  genres : Cell
  first_release : Cell
  last_release : Cell
  num_releases : Cell
  num_tracks : Cell
  playlists_found : Cell
  feat_track_ids : Cell
deriving DecidableEq

/-- Python `s.encode('ascii', errors='ignore').decode('ascii')`: drop
every character outside the 7-bit ASCII range. -/
def asciiClean (s : String) : String :=
  String.mk (s.toList.filter (fun c => c.toNat < 128))

/-- Python `str.upper()`, modelled per character (one-to-many case
expansions such as the sharp s are outside the modelled domain). -/
def pyUpper (s : String) : String :=
  String.mk (s.toList.map Char.toUpper)

/-- The whitespace characters Python `str.strip` removes (ASCII
subset). -/
def isPySpace (c : Char) : Bool :=
  c = ' ' || c = '\t' || c = '\n' || c = '\r' || c = '\x0b' || c = '\x0c'

/-- Python `str.strip()`: drop whitespace from both ends. -/
def pyStrip (s : String) : String :=
  String.mk (((s.toList.dropWhile isPySpace).reverse.dropWhile
    isPySpace).reverse)

/-- Worker for `pySplit`, accumulating the current token reversed. -/
def pySplitAux (sep : Char) : List Char → List Char → List String
  | [], acc => [String.mk acc.reverse]
  | c :: cs, acc =>
      if c = sep then String.mk acc.reverse :: pySplitAux sep cs []
      else pySplitAux sep cs (c :: acc)

/-- Python `s.split(sep)` for a one-character separator: the empty
string yields one empty token, `n` separators yield `n + 1` tokens. -/
def pySplit (sep : Char) (s : String) : List String :=
  pySplitAux sep s.toList []

/-- Python `sep in s` for a one-character needle. -/
def pyContains (s : String) (c : Char) : Bool :=
  s.toList.contains c

/-- Python `s.startswith(c)` for a one-character needle. -/
def pyStartsWith (s : String) (c : Char) : Bool :=
  match s.toList with
  | [] => false
  | d :: _ => d = c

/-- Python `s.endswith(c)` for a one-character needle. -/
def pyEndsWith (s : String) (c : Char) : Bool :=
  match s.toList.getLast? with
  | some d => d = c
  | none => false

/-- Numeric value of a digit run. -/
def digitsToNat (cs : List Char) : Nat :=
  cs.foldl (fun n c => n * 10 + (c.toNat - 48)) 0

/-- Parse a nonempty all-digit string as a natural number. -/
def parseNatDigits (s : String) : Option Nat :=
  if s.toList ≠ [] && s.toList.all Char.isDigit then
    some (digitsToNat s.toList)
  else none

/-- `duplicatedMask seen keys` models
`df.duplicated(subset=[ids], keep=first)` (src/main.py line 195),
generalized over the set `seen` of already seen key values: entry `i` is
`true` exactly when the key at `i` equals an earlier key (or one in
`seen`).  pandas treats NaN keys as equal to each other, as does
`Cell.na = Cell.na` here. -/
def duplicatedMask (seen : List Cell) : List Cell → List Bool
  | [] => []
  | k :: ks => decide (k ∈ seen) :: duplicatedMask (k :: seen) ks

/-- Boolean-mask row selection: `maskFilter rows mask keep` models
`df[mask]` for `keep = true` and `df[~mask]` for `keep = false`
(src/main.py lines 196-197). -/
def maskFilter : List Row → List Bool → Bool → List Row
  | [], _, _ => []
  | _, [], _ => []
  | r :: rs, b :: m, keep =>
      if b = keep then r :: maskFilter rs m keep else maskFilter rs m keep

/-- The partition step of `DataCleaner.clean_data` (src/main.py lines
195-197): boolean duplicate mask on the `ids` column with
`keep=first`, then the clean rows (`~mask`) and the rejected rows
(`mask`). -/
def partitionByIds (rows : List Row) : List Row × List Row :=
  let mask := duplicatedMask [] (rows.map Row.ids)
  (maskFilter rows mask false, maskFilter rows mask true)

/-- Modelled from the spec (section 4.2 Record Partitioner): single pass
over the records keeping a set of seen primary keys; a record with an
unseen key goes to `clean` and its key is marked seen, a record with a
seen key goes to `rejected`.  Used as the specification side of the
refinement proof for the partition step. -/
def firstWinsGo (seen : List Cell) : List Row → List Row × List Row
  | [] => ([], [])
  | r :: rs =>
      if r.ids ∈ seen then
        let p := firstWinsGo seen rs
        (p.1, r :: p.2)
      else
        let p := firstWinsGo (r.ids :: seen) rs
        (r :: p.1, p.2)

/-- Modelled from the spec: the first-occurrence-wins partition starting
with no seen keys. -/
def firstWinsSpec (rows : List Row) : List Row × List Row :=
  firstWinsGo [] rows

/-- Gregorian leap year test. -/
def isLeapYear (y : Nat) : Bool :=
  y % 4 = 0 && (y % 100 ≠ 0 || y % 400 = 0)

/-- Number of days in a month. -/
def daysInMonth (y m : Nat) : Nat :=
  if m = 1 || m = 3 || m = 5 || m = 7 || m = 8 || m = 10 || m = 12 then 31
  else if m = 4 || m = 6 || m = 9 || m = 11 then 30
  else if isLeapYear y then 29 else 28

/-- Build a calendar date, validating month and day ranges. -/
def mkDate (y m d : Nat) : Option (Nat × Nat × Nat) :=
  if 1 ≤ m && m ≤ 12 && 1 ≤ d && d ≤ daysInMonth y m then some (y, m, d)
  else none

/-- Three numeric date components, day-first preferred: a four-digit
first component is read as year-month-day, otherwise the components are
read day-month-year, falling back to month-day-year when the day-first
reading is not a valid date (the dateutil fallback pandas applies). -/
def dateFromParts (parts : List String) : Option (Nat × Nat × Nat) :=
  match parts with
  | [a, b, c] =>
      match parseNatDigits a, parseNatDigits b, parseNatDigits c with
      | some x, some y, some z =>
          if a.length = 4 then mkDate x y z
          else if c.length = 4 then
            match mkDate z y x with
            | some d => some d
            | none => mkDate z x y
          else none
      | _, _, _ => none
  | _ => none

/-- Model of `pd.to_datetime(raw, dayfirst=True, errors=coerce)` as used
at src/main.py line 181, on the numeric dash- and slash-separated
formats; every other shape of input parses to `none` (coerced to NaT by
pandas).  Month names, compact digit runs and two-digit years are
outside the modelled input domain. -/
def parseDateDayfirst (s : String) : Option (Nat × Nat × Nat) :=
  let t := pyStrip s
  if pyContains t '-' then dateFromParts (pySplit '-' t)
  else if pyContains t '/' then dateFromParts (pySplit '/' t)
  else none

/-- Left-pad a numeral with zeros to the given width. -/
def padNum (width n : Nat) : String :=
  let s := toString n
  String.mk (List.replicate (width - s.length) '0') ++ s

/-- `strftime %Y-%m-%d` on a parsed date (src/main.py line 181). -/
def formatDate (d : Nat × Nat × Nat) : String :=
  padNum 4 d.1 ++ "-" ++ padNum 2 d.2.1 ++ "-" ++ padNum 2 d.2.2

/-- The `dates` column transform of `clean_data` (src/main.py line 181):
parse day-first with coercion, then render `%Y-%m-%d`; an unparseable or
missing cell becomes the missing sentinel `Cell.na` (NaT rendered to NaN
by `strftime`).  Integer timestamp cells are outside the modelled
domain and also map to the sentinel. -/
def normDateCell : Cell → Cell
  | Cell.str s =>
      match parseDateDayfirst s with
      | some d => Cell.str (formatDate d)
      | none => Cell.na
  | _ => Cell.na

/-- The `names` column transform (src/main.py line 186):
`.str.upper().str.encode(ascii, ignore).str.decode(ascii)`.  On an
object column the `.str` accessor maps non-string cells to NaN. -/
def normNameCell : Cell → Cell
  | Cell.str s => Cell.str (asciiClean (pyUpper s))
  | _ => Cell.na

/-- The `playlists_found` transform (src/main.py lines 190-193): text
cells are ASCII-cleaned; integer cells are stringified (the
`astype(str)` branch for numeric columns); missing cells stay missing. -/
def normPlaylistsCell : Cell → Cell
  | Cell.str s => Cell.str (asciiClean s)
  | Cell.int n => Cell.str (toString n)
  | c => c

/-- Skip ASCII whitespace characters. -/
def skipWs : List Char → List Char
  | [] => []
  | c :: cs =>
      if c = ' ' || c = '\t' || c = '\n' || c = '\r' then skipWs cs
      else c :: cs

/-- Read the body of a quoted string literal up to the closing quote
`q`.  Backslash escapes are outside the modelled domain and make the
parse fail. -/
def readQuoted (q : Char) : List Char → Option (String × List Char)
  | [] => none
  | c :: cs =>
      if c = q then some ("", cs)
      else if c = '\\' then none
      else
        match readQuoted q cs with
        | some (s, rest) => some (String.mk (c :: s.toList), rest)
        | none => none

/-- Read a maximal run of decimal digits. -/
def readDigits : List Char → List Char × List Char
  | [] => ([], [])
  | c :: cs =>
      if c.isDigit then
        let p := readDigits cs
        (c :: p.1, p.2)
      else ([], c :: cs)

/-- Parse one element of a Python list literal: a single- or
double-quoted string literal, or a decimal integer literal (no leading
zeros), already rendered through Python `str`. -/
def parseElem (cs : List Char) : Option (String × List Char) :=
  match cs with
  | [] => none
  | c :: rest =>
      if c = '\'' || c = '"' then readQuoted c rest
      else if c = '-' || c.isDigit then
        let neg := c = '-'
        let body := if neg then rest else c :: rest
        let p := readDigits body
        if p.1 = [] then none
        else if p.1.length > 1 && p.1.head? = some '0' then none
        else
          let n := digitsToNat p.1
          some (toString (if neg then -(n : Int) else (n : Int)), p.2)
      else none

/-- Parse the comma-separated elements of a list literal up to the
closing bracket, fuel-bounded by the input length. -/
def parseElems : Nat → List Char → Option (List String × List Char)
  | 0, _ => none
  | fuel + 1, cs =>
      match skipWs cs with
      | [] => none
      | c :: rest =>
          if c = ']' then some ([], rest)
          else
            match parseElem (c :: rest) with
            | none => none
            | some (v, cs2) =>
                match skipWs cs2 with
                | ',' :: cs3 =>
                    match parseElems fuel cs3 with
                    | some (vs, r) => some (v :: vs, r)
                    | none => none
                | ']' :: cs3 => some ([v], cs3)
                | _ => none

/-- Model of `ast.literal_eval` restricted to flat Python list literals
of string and integer constants, the shapes exercised by the data and
the spec examples; each element is returned through Python `str`, as
done by `parse_genres`.  Other Python literal shapes (nested lists,
tuples, floats, escapes) are outside the modelled domain.  `none` is
the `SyntaxError`/`ValueError` branch of src/main.py line 155. -/
def pyLiteralEvalList (s : String) : Option (List String) :=
  match skipWs s.toList with
  | '[' :: rest =>
      match parseElems (rest.length + 1) rest with
      | some (vs, r) => if skipWs r = [] then some vs else none
      | none => none
  | _ => none

/-- The comma-split fallback of `parse_genres` (src/main.py line 157):
split on commas, drop tokens that are blank after trimming, trim and
ASCII-clean the kept tokens. -/
def fallbackSplit (s : String) : List String :=
  ((pySplit ',' s).filter (fun item => pyStrip item ≠ "")).map
    (fun item => asciiClean (pyStrip item))

/-- `DataCleaner.parse_genres` (src/main.py lines 148-158).  The second
component records whether the warning of line 156 was logged: it is
`true` exactly when the cell is bracketed at both ends but the literal
parse fails.  Missing, non-string and blank cells yield the empty
list. -/
def parse_genres (x : Cell) : List String × Bool :=
  match x with
  | Cell.str s =>
      if pyStrip s = "" then ([], false)
      else if pyStartsWith s '[' && pyEndsWith s ']' then
        match pyLiteralEvalList s with
        | some items => (items.map (fun it => asciiClean (pyStrip it)), false)
        | none => (fallbackSplit s, true)
      else (fallbackSplit s, false)
  | _ => ([], false)

/-- The identifier shape rule of `parse_track_ids` (src/main.py line
162): exactly 22 characters, all ASCII letters or digits. -/
def isValidTrackId (s : String) : Bool :=
  s.length = 22 && s.toList.all (fun c => c.isAlpha || c.isDigit)

/-- The candidate list of `parse_track_ids` (src/main.py line 163):
split on commas and trim each token when a comma is present, otherwise
the whole trimmed string is the single candidate. -/
def trackCandidates (s : String) : List String :=
  if pyContains s ',' then (pySplit ',' s).map pyStrip else [pyStrip s]

/-- The classification loop of `parse_track_ids` (src/main.py lines
167-171): a nonempty candidate matching the shape rule is ASCII-cleaned
and kept, every other candidate is collected as invalid. -/
def classifyTrackIds : List String → List String × List String
  | [] => ([], [])
  | it :: rest =>
      let p := classifyTrackIds rest
      if it ≠ "" && isValidTrackId it then (asciiClean it :: p.1, p.2)
      else (p.1, it :: p.2)

/-- Result of `DataCleaner.parse_track_ids`: the kept identifiers, the
invalid values actually logged (at most the first five, src/main.py
line 174), and whether the log line carried the `and more` truncation
indicator. -/
structure TrackParse where
  valid : List String
  logged : List String
  truncated : Bool
deriving DecidableEq

/-- `DataCleaner.parse_track_ids` (src/main.py lines 160-177). -/
def parse_track_ids (x : Cell) : TrackParse :=
  match x with
  | Cell.str s =>
      if pyStrip s = "" then ⟨[], [], false⟩
      else
        let p := classifyTrackIds (trackCandidates s)
        ⟨p.1, p.2.take 5, decide (p.2.length > 5)⟩
  | _ => ⟨[], [], false⟩

/-- The column rewrites of `DataCleaner.clean_data` (src/main.py lines
181-193) applied to one row: dates normalized day-first with the
missing sentinel, names uppercased and ASCII-cleaned, genres and
feat_track_ids parsed into lists, playlists_found ASCII-cleaned or
stringified; `ids` and the remaining numeric columns are untouched. -/
def normalizeRow (r : Row) : Row :=
  { r with
    dates := normDateCell r.dates
    names := normNameCell r.names
    genres := Cell.lst (parse_genres r.genres).1
    feat_track_ids := Cell.lst (parse_track_ids r.feat_track_ids).valid
    playlists_found := normPlaylistsCell r.playlists_found }

/-- `DataCleaner.clean_data` (src/main.py lines 179-206).  The column
assignments of lines 181-193 mutate the DataFrame the caller passed in;
the first component is therefore the content of the caller-visible
frame after the call, and the second and third components are the
returned clean and duplicate partitions (copies taken from the mutated
frame at lines 196-197). -/
def clean_data (df : List Row) : List Row × List Row × List Row :=
  let post := df.map normalizeRow
  (post, partitionByIds post)

/-- A JSON value as emitted into the backup artifact: the shapes
`create_backup_files` actually produces (integers, strings, arrays of
strings, and the token `json.dump` writes for a missing cell). -/
inductive JVal where
  | jnull : JVal
  | jint : Int → JVal
  | jstr : String → JVal
  | jarr : List String → JVal
deriving DecidableEq

/-- One per-record object of the JSON artifact, mirroring the dict
literal of src/main.py lines 259-273. -/
structure JRecord where
  dates : JVal
  ids : JVal
  names : JVal
  monthly_listeners : JVal
  popularity : JVal
  followers : JVal
  genres : JVal
  first_release : JVal
  last_release : JVal
  num_releases : JVal
  num_tracks : JVal
  playlists_found : JVal
  feat_track_ids : JVal
deriving DecidableEq

/-- Python `str(...)` of a cell value: a missing float cell renders as
the string nan, a list renders in Python list notation with
single-quoted elements (embedded quotes and float rendering are outside
the modelled domain). -/
def joinCommaSep : List String → String
  | [] => ""
  | [x] => x
  | x :: rest => x ++ ", " ++ joinCommaSep rest

def pyStrList (xs : List String) : String :=
  "[" ++ joinCommaSep (xs.map (fun x => "'" ++ x ++ "'")) ++ "]"

/-- Python `str` on one cell. -/
def pyStrCell : Cell → String
  | Cell.na => "nan"
  | Cell.int n => toString n
  | Cell.str s => s
  | Cell.lst xs => pyStrList xs

/-- Python `int(...)` on a string: optional sign, then decimal digits
(underscore separators and unicode digits are outside the modelled
domain). -/
def pyIntOfString (s : String) : Option Int :=
  match (pyStrip s).toList with
  | '-' :: rest =>
      if rest ≠ [] && rest.all Char.isDigit then some (-(digitsToNat rest : Int))
      else none
  | '+' :: rest =>
      if rest ≠ [] && rest.all Char.isDigit then some (digitsToNat rest : Int)
      else none
  | cs =>
      if cs ≠ [] && cs.all Char.isDigit then some (digitsToNat cs : Int)
      else none

/-- A cell placed verbatim into the JSON dict (the `dates`, `genres`
and `feat_track_ids` entries of src/main.py lines 260, 266, 272).  A
missing cell is written by `json.dump` as its null-like token
(non-standard NaN in CPython), modelled as `jnull`. -/
def cellToJVal : Cell → JVal
  | Cell.na => JVal.jnull
  | Cell.int n => JVal.jint n
  | Cell.str s => JVal.jstr s
  | Cell.lst xs => JVal.jarr xs

/-- The numeric coercion `int(row[c]) if pd.notna(row[c]) else 0` of
src/main.py lines 263-270: a missing cell becomes the integer 0, an
integer cell is kept, a text cell goes through Python `int` and raises
`ValueError` when unparseable, a list cell raises `TypeError`. -/
def intCoerce : Cell → Except String JVal
  | Cell.na => Except.ok (JVal.jint 0)
  | Cell.int n => Except.ok (JVal.jint n)
  | Cell.str s =>
      match pyIntOfString s with
      | some n => Except.ok (JVal.jint n)
      | none => Except.error "ValueError"
  | Cell.lst _ => Except.error "TypeError"

/-- The per-record dict of the JSON artifact (src/main.py lines
259-273). -/
def serializeRecord (r : Row) : Except String JRecord := do
  let ml ← intCoerce r.monthly_listeners
  let pop ← intCoerce r.popularity
  let fol ← intCoerce r.followers
  let nrel ← intCoerce r.num_releases
  let ntr ← intCoerce r.num_tracks
  Except.ok
    { dates := cellToJVal r.dates
      ids := JVal.jstr (pyStrCell r.ids)
      names := JVal.jstr (pyStrCell r.names)
      monthly_listeners := ml
      popularity := pop
      followers := fol
      genres := cellToJVal r.genres
      first_release := JVal.jstr (pyStrCell r.first_release)
      last_release := JVal.jstr (pyStrCell r.last_release)
      num_releases := nrel
      num_tracks := ntr
      playlists_found := JVal.jstr (pyStrCell r.playlists_found)
      feat_track_ids := cellToJVal r.feat_track_ids }

/-- The `for _, row in clean_data.iterrows()` loop of src/main.py line
258: records are serialized in order and the first failing row aborts
the file write. -/
def serializeCleanList : List Row → Except String (List JRecord)
  | [] => Except.ok []
  | r :: rs => do
      let j ← serializeRecord r
      let js ← serializeCleanList rs
      Except.ok (j :: js)

/-- One cell rendered by `DataFrame.to_csv` (missing becomes the empty
field). -/
def csvCell : Cell → String
  | Cell.na => ""
  | Cell.int n => toString n
  | Cell.str s => s
  | Cell.lst xs => pyStrList xs

/-- One data row of the rejected-records CSV artifact (src/main.py
lines 242-248): the list-valued `genres` and `feat_track_ids` columns
are first flattened by Python `str`, then every cell is rendered. -/
def rowToCsv (r : Row) : List String :=
  [csvCell r.dates, csvCell r.ids, csvCell r.names,
   csvCell r.monthly_listeners, csvCell r.popularity, csvCell r.followers,
   csvCell (Cell.str (pyStrCell r.genres)), csvCell r.first_release,
   csvCell r.last_release, csvCell r.num_releases, csvCell r.num_tracks,
   csvCell r.playlists_found, csvCell (Cell.str (pyStrCell r.feat_track_ids))]

/-- The JSON document of src/main.py lines 253-256. -/
structure JsonDoc where
  row_count : Nat
  data : List JRecord
deriving DecidableEq

/-- The two artifacts produced by `create_backup_files`. -/
structure Artifacts where
  csvPath : String
  csvRows : List (List String)
  jsonPath : String
  doc : JsonDoc
deriving DecidableEq

/-- `DataCleaner.create_backup_files` (src/main.py lines 233-282),
with `token` the run token `self.test_datetime`: the rejected partition
goes to `/target/data_reject_<token>.csv`, the clean partition to
`/target/data_<token>.json` as an object with `row_count` and the
ordered `data` list.  A row whose numeric coercion raises aborts the
whole call (re-raised at line 282). -/
def createBackupFiles (clean dup : List Row) (token : String) :
    Except String Artifacts := do
  let js ← serializeCleanList clean
  Except.ok
    { csvPath := "/target/data_reject_" ++ token ++ ".csv"
      csvRows := dup.map rowToCsv
      jsonPath := "/target/data_" ++ token ++ ".json"
      doc := { row_count := clean.length, data := js } }

/-- The state of the source file as `pd.read_csv` sees it: missing,
present but zero-byte, or present with a header (the column names) and
zero or more data rows. -/
inductive FileState where
  | absent : FileState
  | empty : FileState
  | present : List String → List Row → FileState
deriving DecidableEq

/-- The fatal error taxonomy of the pipeline. -/
inductive PErr where
  | connectionFailed : PErr
  | sourceNotFound : PErr
  | emptyData : PErr
  | missingColumn : String → PErr
  | cleanInsertRejected : PErr
  | rejectInsertRejected : PErr
  | serializeError : String → PErr
deriving DecidableEq

/-- `DataCleaner.read_csv` (src/main.py lines 128-146), which delegates
to `pd.read_csv`: a missing path raises `FileNotFoundError`, a
zero-byte file raises pandas `EmptyDataError` (no columns to parse);
the except-clause at lines 144-146 re-raises both.  A header-only file
is a present file with an empty row list and loads as an empty
DataFrame.  The UTF-8 fallback decode of lines 136-143 affects only
cell contents and is not modelled separately. -/
def read_csv : FileState → Except PErr (List String × List Row)
  | FileState.absent => Except.error PErr.sourceNotFound
  | FileState.empty => Except.error PErr.emptyData
  | FileState.present cols rows => Except.ok (cols, rows)

/-- The columns `clean_data` accesses, in the order of src/main.py
lines 181-195 (the `ids` access for the duplicate mask comes last; the
logging-only access of `ids` at line 184 happens only when invalid
dates exist and is not modelled separately). -/
def accessedCols : List String :=
  ["dates", "names", "genres", "feat_track_ids", "playlists_found", "ids"]

/-- The first column access of `clean_data` that would raise a
`KeyError` against the loaded header. -/
def firstMissingCol (cols : List String) : Option String :=
  accessedCols.find? (fun c => !(cols.contains c))

/-- `clean_data` as invoked by the pipeline: a required column absent
from the header raises a `KeyError` (fatal, re-raised at line 206),
otherwise the normalize-and-partition result of `clean_data`. -/
def cleanDataStep (cols : List String) (rows : List Row) :
    Except PErr (List Row × List Row × List Row) :=
  match firstMissingCol cols with
  | some c => Except.error (PErr.missingColumn c)
  | none => Except.ok (clean_data rows)

/-- The external state one invocation of `run_pipeline` runs against:
database reachability, the source file, whether the two table appends
are accepted by the store, the run token, and the pre-existing table
row counts. -/
structure Env where
  dbReachable : Bool
  file : FileState
  cleanInsertOk : Bool
  rejectInsertOk : Bool
  token : String
  dataCount : Nat
  rejectCount : Nat
deriving DecidableEq

/-- `DataCleaner.run_pipeline` (src/main.py lines 318-350), sequencing
connect, create_tables, read_csv, clean_data, insert_to_database,
create_backup_files, get_table_counts.  Errors of every step propagate
(each step re-raises).  `get_table_counts` queries the cumulative table
totals; run_pipeline discards its return value (line 342, bare call)
and the Python function returns None on success, modelled as
`Except.ok none` in the result type that would carry a count pair if
one were returned. -/
def runPipeline (env : Env) : Except PErr (Option (Nat × Nat)) :=
  if env.dbReachable = false then Except.error PErr.connectionFailed
  else
    match read_csv env.file with
    | Except.error e => Except.error e
    | Except.ok (cols, rows) =>
        match cleanDataStep cols rows with
        | Except.error e => Except.error e
        | Except.ok t =>
            if env.cleanInsertOk = false then
              Except.error PErr.cleanInsertRejected
            else if env.rejectInsertOk = false then
              Except.error PErr.rejectInsertRejected
            else
              match createBackupFiles t.2.1 t.2.2 env.token with
              | Except.error m => Except.error (PErr.serializeError m)
              | Except.ok _arts =>
                  let _counts := (env.dataCount + t.2.1.length,
                                  env.rejectCount + t.2.2.length)
                  Except.ok none

/-- Whether an `Except` result is a success. -/
def exceptIsOk {ε α : Type} : Except ε α → Bool
  | Except.ok _ => true
  | Except.error _ => false

/-- A row with the given `dates`, `ids` and `names` cells and every
other cell missing, for concrete test inputs. -/
def mkRow (d i n : Cell) : Row :=
  { dates := d, ids := i, names := n,
    monthly_listeners := Cell.na, popularity := Cell.na, followers := Cell.na,
    genres := Cell.na, first_release := Cell.na, last_release := Cell.na,
    num_releases := Cell.na, num_tracks := Cell.na,
    playlists_found := Cell.na, feat_track_ids := Cell.na }

/-- Five rows with primary keys A, B, A, A, C in that order, the
occurrences distinguished by their `names` cell. -/
def exKeyedRows : List Row :=
  [mkRow Cell.na (Cell.str "A") (Cell.str "FIRST"),
   mkRow Cell.na (Cell.str "B") (Cell.str "FIRST"),
   mkRow Cell.na (Cell.str "A") (Cell.str "SECOND"),
   mkRow Cell.na (Cell.str "A") (Cell.str "THIRD"),
   mkRow Cell.na (Cell.str "C") (Cell.str "FIRST")]

/-- A normalized clean row whose `monthly_listeners`, `first_release`
and `last_release` cells are missing. -/
def exRowC6 : Row :=
  { dates := Cell.str "2024-01-01", ids := Cell.str "9",
    names := Cell.str "X", monthly_listeners := Cell.na,
    popularity := Cell.int 80, followers := Cell.int 500,
    genres := Cell.lst ["pop"], first_release := Cell.na,
    last_release := Cell.na, num_releases := Cell.int 5,
    num_tracks := Cell.int 50, playlists_found := Cell.str "100",
    feat_track_ids := Cell.lst [] }

/-- The JSON record `create_backup_files` emits for `exRowC6`. -/
def exJRecC6 : JRecord :=
  { dates := JVal.jstr "2024-01-01", ids := JVal.jstr "9",
    names := JVal.jstr "X", monthly_listeners := JVal.jint 0,
    popularity := JVal.jint 80, followers := JVal.jint 500,
    genres := JVal.jarr ["pop"], first_release := JVal.jstr "nan",
    last_release := JVal.jstr "nan", num_releases := JVal.jint 5,
    num_tracks := JVal.jint 50, playlists_found := JVal.jstr "100",
    feat_track_ids := JVal.jarr [] }

/-- The artifacts produced for clean set `[exRowC6]`, empty rejected
set and run token 20240101000000. -/
def artsEx : Artifacts :=
  { csvPath := "/target/data_reject_20240101000000.csv", csvRows := [],
    jsonPath := "/target/data_20240101000000.json",
    doc := { row_count := 1, data := [exJRecC6] } }

/-- A raw row whose `dates` cell holds no parseable date. -/
def exRowBadDate : Row :=
  mkRow (Cell.str "not-a-date") (Cell.str "1") (Cell.str "a")

/-- A raw input row for the end-to-end pipeline example, with the cell
shapes of the test fixture in src/test_main.py. -/
def exPipeRow (i n : String) : Row :=
  { dates := Cell.str "2024-01-01", ids := Cell.str i, names := Cell.str n,
    monthly_listeners := Cell.int 1000000, popularity := Cell.int 80,
    followers := Cell.int 500000, genres := Cell.str "['pop']",
    first_release := Cell.str "2020", last_release := Cell.str "2024",
    num_releases := Cell.int 5, num_tracks := Cell.int 50,
    playlists_found := Cell.str "100",
    feat_track_ids := Cell.str "['track1']" }

/-- The full source header. -/
def exHeader : List String :=
  ["dates", "ids", "names", "monthly_listeners", "popularity", "followers",
   "genres", "first_release", "last_release", "num_releases", "num_tracks",
   "playlists_found", "feat_track_ids"]

/-- A fully healthy environment whose source file holds three rows with
ids 1, 2, 1 (the third a duplicate of the first). -/
def envOkEx : Env :=
  { dbReachable := true,
    file := FileState.present exHeader
      [exPipeRow "1" "artist one", exPipeRow "2" "artist two",
       exPipeRow "1" "artist one"],
    cleanInsertOk := true, rejectInsertOk := true,
    token := "20240101000000", dataCount := 0, rejectCount := 0 }

/-- An environment whose database is unreachable. -/
def envOffEx : Env :=
  { dbReachable := false, file := FileState.absent, cleanInsertOk := true,
    rejectInsertOk := true, token := "t", dataCount := 0, rejectCount := 0 }

theorem firstWinsGo_cons_mem (seen : List Cell) (r : Row) (rs : List Row)
    (h : r.ids ∈ seen) :
    firstWinsGo seen (r :: rs)
      = ((firstWinsGo seen rs).1, r :: (firstWinsGo seen rs).2) := by
  simp [firstWinsGo, h]

theorem firstWinsGo_cons_fresh (seen : List Cell) (r : Row) (rs : List Row)
    (h : r.ids ∉ seen) :
    firstWinsGo seen (r :: rs)
      = (r :: (firstWinsGo (r.ids :: seen) rs).1,
         (firstWinsGo (r.ids :: seen) rs).2) := by
  simp [firstWinsGo, h]

theorem duplicatedMask_congr (ks : List Cell) :
    ∀ seen seen2 : List Cell, (∀ k, k ∈ seen ↔ k ∈ seen2) →
      duplicatedMask seen ks = duplicatedMask seen2 ks := by
  induction ks with
  | nil => intro seen seen2 _; rfl
  | cons k ks ih =>
      intro seen seen2 hiff
      simp only [duplicatedMask]
      have h1 : decide (k ∈ seen) = decide (k ∈ seen2) := by
        simp [hiff k]
      have h2 : duplicatedMask (k :: seen) ks = duplicatedMask (k :: seen2) ks := by
        apply ih
        intro x
        simp [hiff x]
      rw [h1, h2]

theorem maskFilter_duplicatedMask (rows : List Row) :
    ∀ seen : List Cell,
      maskFilter rows (duplicatedMask seen (rows.map Row.ids)) false
          = (firstWinsGo seen rows).1 ∧
      maskFilter rows (duplicatedMask seen (rows.map Row.ids)) true
          = (firstWinsGo seen rows).2 := by
  induction rows with
  | nil => intro seen; simp [maskFilter, duplicatedMask, firstWinsGo]
  | cons r rs ih =>
      intro seen
      by_cases h : r.ids ∈ seen
      · rw [firstWinsGo_cons_mem seen r rs h]
        have hmask : duplicatedMask (r.ids :: seen) (rs.map Row.ids)
            = duplicatedMask seen (rs.map Row.ids) := by
          apply duplicatedMask_congr
          intro x
          constructor
          · intro hx
            rcases List.mem_cons.mp hx with hx | hx
            · exact hx ▸ h
            · exact hx
          · exact List.mem_cons_of_mem _
        constructor
        · simp [duplicatedMask, decide_eq_true h, hmask, maskFilter, (ih seen).1]
        · simp [duplicatedMask, decide_eq_true h, hmask, maskFilter, (ih seen).2]
      · rw [firstWinsGo_cons_fresh seen r rs h]
        constructor
        · simp [duplicatedMask, decide_eq_false h, maskFilter,
            (ih (r.ids :: seen)).1]
        · simp [duplicatedMask, decide_eq_false h, maskFilter,
            (ih (r.ids :: seen)).2]

theorem partitionByIds_eq_firstWins (rows : List Row) :
    partitionByIds rows = firstWinsSpec rows := by
  have h := maskFilter_duplicatedMask rows []
  simp only [partitionByIds, firstWinsSpec]
  exact Prod.ext h.1 h.2

theorem firstWinsGo_length (rows : List Row) :
    ∀ seen : List Cell,
      (firstWinsGo seen rows).1.length + (firstWinsGo seen rows).2.length
        = rows.length := by
  induction rows with
  | nil => intro seen; simp [firstWinsGo]
  | cons r rs ih =>
      intro seen
      by_cases h : r.ids ∈ seen
      · rw [firstWinsGo_cons_mem seen r rs h]
        have := ih seen
        simp only [List.length_cons]
        omega
      · rw [firstWinsGo_cons_fresh seen r rs h]
        have := ih (r.ids :: seen)
        simp only [List.length_cons]
        omega

theorem firstWinsGo_clean_fresh (rows : List Row) :
    ∀ seen : List Cell,
      ((firstWinsGo seen rows).1.map Row.ids).Nodup ∧
      ∀ r ∈ (firstWinsGo seen rows).1, r.ids ∉ seen := by
  induction rows with
  | nil => intro seen; simp [firstWinsGo]
  | cons r rs ih =>
      intro seen
      by_cases h : r.ids ∈ seen
      · rw [firstWinsGo_cons_mem seen r rs h]
        exact ih seen
      · have ih2 := ih (r.ids :: seen)
        rw [firstWinsGo_cons_fresh seen r rs h]
        refine ⟨?_, ?_⟩
        · simp only [List.map_cons, List.nodup_cons]
          refine ⟨?_, ih2.1⟩
          intro hmem
          rcases List.mem_map.mp hmem with ⟨c, hc, hcid⟩
          exact (ih2.2 c hc) (by simp [hcid])
        · intro c hc
          rcases List.mem_cons.mp hc with hc | hc
          · subst hc; exact h
          · have := ih2.2 c hc
            intro hmem
            exact this (List.mem_cons_of_mem _ hmem)

theorem firstWinsGo_rejected_seen (rows : List Row) :
    ∀ seen : List Cell, ∀ r ∈ (firstWinsGo seen rows).2,
      (∃ c ∈ (firstWinsGo seen rows).1, c.ids = r.ids) ∨ r.ids ∈ seen := by
  induction rows with
  | nil => intro seen; simp [firstWinsGo]
  | cons r rs ih =>
      intro seen
      by_cases h : r.ids ∈ seen
      · rw [firstWinsGo_cons_mem seen r rs h]
        intro x hx
        rcases List.mem_cons.mp hx with hx | hx
        · subst hx; exact Or.inr h
        · exact ih seen x hx
      · rw [firstWinsGo_cons_fresh seen r rs h]
        intro x hx
        rcases ih (r.ids :: seen) x hx with ⟨c, hc, hcid⟩ | hmem
        · exact Or.inl ⟨c, List.mem_cons_of_mem _ hc, hcid⟩
        · rcases List.mem_cons.mp hmem with heq | hmem2
          · exact Or.inl ⟨r, List.mem_cons_self _ _, heq.symm⟩
          · exact Or.inr hmem2

theorem firstWinsGo_perm (rows : List Row) :
    ∀ seen : List Cell,
      ((firstWinsGo seen rows).1 ++ (firstWinsGo seen rows).2).Perm rows := by
  induction rows with
  | nil => intro seen; simp [firstWinsGo]
  | cons r rs ih =>
      intro seen
      by_cases h : r.ids ∈ seen
      · rw [firstWinsGo_cons_mem seen r rs h]
        exact List.Perm.trans List.perm_middle ((ih seen).cons r)
      · rw [firstWinsGo_cons_fresh seen r rs h]
        simp only [List.cons_append]
        exact List.Perm.cons r (ih (r.ids :: seen))

theorem char_alnum_ascii (c : Char) (h : (c.isAlpha || c.isDigit) = true) :
    c.toNat < 128 := by
  simp [Char.isAlpha, Char.isUpper, Char.isLower, Char.isDigit] at h
  have h3 : c.val.toNat < 128 := by
    rcases h with (⟨_, h2⟩ | ⟨_, h2⟩) | ⟨_, h2⟩
    · have h4 : c.val.toNat ≤ 90 := h2
      omega
    · have h4 : c.val.toNat ≤ 122 := h2
      omega
    · have h4 : c.val.toNat ≤ 57 := h2
      omega
  exact h3

theorem asciiClean_of_valid (it : String) (h : isValidTrackId it = true) :
    asciiClean it = it := by
  have hall : ∀ c ∈ it.toList, (c.isAlpha || c.isDigit) = true := by
    have h2 := h
    simp only [isValidTrackId, Bool.and_eq_true, List.all_eq_true] at h2
    intro c hc
    exact h2.2 c hc
  have hf : it.toList.filter (fun c => c.toNat < 128) = it.toList := by
    apply List.filter_eq_self.mpr
    intro c hc
    exact decide_eq_true (char_alnum_ascii c (hall c hc))
  show String.mk (it.toList.filter (fun c => c.toNat < 128)) = it
  rw [hf]
  rfl

theorem trackGuard_eq_valid (it : String) :
    (decide (it ≠ "") && isValidTrackId it) = isValidTrackId it := by
  by_cases h : it = ""
  · subst h; decide
  · simp [h]

theorem classifyTrackIds_eq (items : List String) :
    classifyTrackIds items
      = ((items.filter (fun it => isValidTrackId it)).map asciiClean,
         items.filter (fun it => !(isValidTrackId it))) := by
  induction items with
  | nil => rfl
  | cons it rest ih =>
      simp only [classifyTrackIds, ih, trackGuard_eq_valid]
      by_cases h : isValidTrackId it
      · simp [List.filter_cons, h]
      · simp [List.filter_cons, h]

/-- Claim C1: partitioning by the primary key `ids` is
first-occurrence-wins — the boolean-mask partition of `clean_data`
(lines 195-197) equals the seen-set single pass of the spec, so the
first record of each distinct `ids` value lands in `clean` and every
later record with an already seen `ids` value lands in `rejected`,
input order preserved in both; on keys A, B, A, A, C the clean
partition is the first A, B and C and the rejected partition is the
second and third A. -/
theorem partition_first_occurrence_wins :
    (∀ rows : List Row, partitionByIds rows = firstWinsSpec rows) ∧
    partitionByIds exKeyedRows
      = ([mkRow Cell.na (Cell.str "A") (Cell.str "FIRST"),
          mkRow Cell.na (Cell.str "B") (Cell.str "FIRST"),
          mkRow Cell.na (Cell.str "C") (Cell.str "FIRST")],
         [mkRow Cell.na (Cell.str "A") (Cell.str "SECOND"),
          mkRow Cell.na (Cell.str "A") (Cell.str "THIRD")]) :=
  ⟨partitionByIds_eq_firstWins, by decide⟩

/-- Claim C2: for every input sequence, including the empty one, the
partition lengths sum to the input length, no `ids` value occurs twice
in the clean partition, and every rejected record's `ids` value also
occurs in the clean partition. -/
theorem partition_cardinality_invariants (rows : List Row) :
    (partitionByIds rows).1.length + (partitionByIds rows).2.length
        = rows.length ∧
    ((partitionByIds rows).1.map Row.ids).Nodup ∧
    ∀ r ∈ (partitionByIds rows).2,
      ∃ c ∈ (partitionByIds rows).1, c.ids = r.ids := by
  rw [partitionByIds_eq_firstWins, firstWinsSpec]
  refine ⟨firstWinsGo_length rows [], (firstWinsGo_clean_fresh rows []).1, ?_⟩
  intro r hr
  rcases firstWinsGo_rejected_seen rows [] r hr with h | h
  · exact h
  · simp at h

/-- Claim C5: `parse_track_ids` keeps, in original order, exactly the
candidates that satisfy the 22-character alphanumeric shape rule, logs
the first five invalid candidates, and sets the truncation indicator
exactly when more than five are invalid; the input
abcdefghijklmnopqrstuv,bad!! keeps only its first token. -/
theorem parse_track_ids_filter (s : String) (hs : ¬ pyStrip s = "") :
    (parse_track_ids (Cell.str s)).valid
        = (trackCandidates s).filter (fun it => isValidTrackId it) ∧
    (parse_track_ids (Cell.str s)).logged
        = ((trackCandidates s).filter (fun it => !(isValidTrackId it))).take 5 ∧
    (parse_track_ids (Cell.str s)).truncated
        = decide (((trackCandidates s).filter
            (fun it => !(isValidTrackId it))).length > 5) ∧
    parse_track_ids (Cell.str "abcdefghijklmnopqrstuv,bad!!")
        = ⟨["abcdefghijklmnopqrstuv"], ["bad!!"], false⟩ := by
  have hmap : ((trackCandidates s).filter
      (fun it => isValidTrackId it)).map asciiClean
      = (trackCandidates s).filter (fun it => isValidTrackId it) := by
    have : ∀ it ∈ (trackCandidates s).filter (fun it => isValidTrackId it),
        asciiClean it = it := by
      intro it hit
      exact asciiClean_of_valid it (List.mem_filter.mp hit).2
    calc ((trackCandidates s).filter (fun it => isValidTrackId it)).map
          asciiClean
        = ((trackCandidates s).filter (fun it => isValidTrackId it)).map
          id := List.map_congr_left this
      _ = _ := List.map_id _
  refine ⟨?_, ?_, ?_, by decide⟩
  · simp [parse_track_ids, hs, classifyTrackIds_eq, hmap]
  · simp [parse_track_ids, hs, classifyTrackIds_eq]
  · simp [parse_track_ids, hs, classifyTrackIds_eq]

/-- Witness for C5 at the concrete input of the claim. -/
theorem parse_track_ids_filter_w :
    (parse_track_ids (Cell.str "abcdefghijklmnopqrstuv,bad!!")).valid
        = (trackCandidates "abcdefghijklmnopqrstuv,bad!!").filter
            (fun it => isValidTrackId it) ∧
    (parse_track_ids (Cell.str "abcdefghijklmnopqrstuv,bad!!")).logged
        = ((trackCandidates "abcdefghijklmnopqrstuv,bad!!").filter
            (fun it => !(isValidTrackId it))).take 5 ∧
    (parse_track_ids (Cell.str "abcdefghijklmnopqrstuv,bad!!")).truncated
        = decide (((trackCandidates "abcdefghijklmnopqrstuv,bad!!").filter
            (fun it => !(isValidTrackId it))).length > 5) ∧
    parse_track_ids (Cell.str "abcdefghijklmnopqrstuv,bad!!")
        = ⟨["abcdefghijklmnopqrstuv"], ["bad!!"], false⟩ :=
  parse_track_ids_filter "abcdefghijklmnopqrstuv,bad!!" (by decide)

/-- Claim C4, amended: when the structural list-literal path is not
taken, `parse_genres` falls back to comma-splitting with trimming,
empty-token dropping and ASCII-cleaning; the warning is logged only
when the input is bracketed at both ends and the literal parse fails —
an input like `[pop, rock` that lacks the closing bracket skips the
literal parse entirely and falls back with no warning. -/
theorem parse_genres_fallback (s : String) (hs : ¬ pyStrip s = "") :
    ((pyStartsWith s '[' && pyEndsWith s ']') = false →
        parse_genres (Cell.str s) = (fallbackSplit s, false)) ∧
    ((pyStartsWith s '[' && pyEndsWith s ']') = true →
        pyLiteralEvalList s = none →
        parse_genres (Cell.str s) = (fallbackSplit s, true)) := by
  constructor
  · intro hb
    simp [parse_genres, hs, hb]
  · intro hb hev
    simp [parse_genres, hs, hb, hev]

/-- Witness for C4 at the concrete input `[pop, rock` of the claim. -/
theorem parse_genres_fallback_w :
    ((pyStartsWith "[pop, rock" '[' && pyEndsWith "[pop, rock" ']') = false →
        parse_genres (Cell.str "[pop, rock")
          = (fallbackSplit "[pop, rock", false)) ∧
    ((pyStartsWith "[pop, rock" '[' && pyEndsWith "[pop, rock" ']') = true →
        pyLiteralEvalList "[pop, rock" = none →
        parse_genres (Cell.str "[pop, rock")
          = (fallbackSplit "[pop, rock", true)) :=
  parse_genres_fallback "[pop, rock" (by decide)

/-- Counterexample for C4 as stated: the malformed bracketed input
`[pop, rock` does yield the tokens `[pop` and `rock`, but the warning
flag is `false` — no warning is logged, because the input fails the
closing-bracket test of line 150 and the literal parse of line 152 is
never attempted, while the claim says this input logs a warning. -/
theorem parse_genres_no_warning_cex :
    parse_genres (Cell.str "[pop, rock") = (["[pop", "rock"], false) := by
  decide

/-- Claim C8: an unparseable date string becomes the missing sentinel
for its row without aborting the batch — the row keeps its `ids`, the
normalized rows are exactly the input rows transformed (none dropped:
clean and rejected together are a permutation of the normalized
dataset), and the row still lands in one of the two partitions. -/
theorem normalize_date_missing_nonfatal (rows : List Row) (raw : Row)
    (hmem : raw ∈ rows) (ds : String) (hds : raw.dates = Cell.str ds)
    (hbad : parseDateDayfirst ds = none) :
    (normalizeRow raw).dates = Cell.na ∧
    (normalizeRow raw).ids = raw.ids ∧
    ((partitionByIds (rows.map normalizeRow)).1
        ++ (partitionByIds (rows.map normalizeRow)).2).Perm
      (rows.map normalizeRow) ∧
    (normalizeRow raw ∈ (partitionByIds (rows.map normalizeRow)).1 ∨
     normalizeRow raw ∈ (partitionByIds (rows.map normalizeRow)).2) := by
  have hperm : ((partitionByIds (rows.map normalizeRow)).1
      ++ (partitionByIds (rows.map normalizeRow)).2).Perm
      (rows.map normalizeRow) := by
    rw [partitionByIds_eq_firstWins, firstWinsSpec]
    exact firstWinsGo_perm (rows.map normalizeRow) []
  refine ⟨?_, ?_, hperm, ?_⟩
  · simp [normalizeRow, normDateCell, hds, hbad]
  · simp [normalizeRow]
  · have hin : normalizeRow raw ∈ rows.map normalizeRow :=
      List.mem_map_of_mem normalizeRow hmem
    exact List.mem_append.mp (hperm.mem_iff.mpr hin)

/-- Witness for C8: a one-row batch whose date cell is not a date. -/
theorem normalize_date_missing_nonfatal_w :
    (normalizeRow exRowBadDate).dates = Cell.na ∧
    (normalizeRow exRowBadDate).ids = exRowBadDate.ids ∧
    ((partitionByIds ([exRowBadDate].map normalizeRow)).1
        ++ (partitionByIds ([exRowBadDate].map normalizeRow)).2).Perm
      ([exRowBadDate].map normalizeRow) ∧
    (normalizeRow exRowBadDate
        ∈ (partitionByIds ([exRowBadDate].map normalizeRow)).1 ∨
     normalizeRow exRowBadDate
        ∈ (partitionByIds ([exRowBadDate].map normalizeRow)).2) :=
  normalize_date_missing_nonfatal [exRowBadDate] exRowBadDate (by decide)
    "not-a-date" (by decide) (by decide)

theorem serializeCleanList_length (clean : List Row) :
    ∀ js, serializeCleanList clean = Except.ok js → js.length = clean.length := by
  induction clean with
  | nil =>
      intro js h
      simp only [serializeCleanList, Except.ok.injEq] at h
      subst h
      rfl
  | cons r rs ih =>
      intro js h
      cases hr : serializeRecord r with
      | error e => simp [serializeCleanList, hr, bind, Except.bind] at h
      | ok j =>
          cases hs : serializeCleanList rs with
          | error e =>
              simp [serializeCleanList, hr, hs, bind, Except.bind] at h
          | ok js2 =>
              simp only [serializeCleanList, hr, hs, bind, Except.bind,
                Except.ok.injEq] at h
              subst h
              simp [ih js2 hs]

theorem serializeRecord_ok_fields (r : Row) (j : JRecord)
    (h : serializeRecord r = Except.ok j) :
    intCoerce r.monthly_listeners = Except.ok j.monthly_listeners ∧
    intCoerce r.popularity = Except.ok j.popularity ∧
    intCoerce r.followers = Except.ok j.followers ∧
    intCoerce r.num_releases = Except.ok j.num_releases ∧
    intCoerce r.num_tracks = Except.ok j.num_tracks ∧
    j.dates = cellToJVal r.dates ∧
    j.ids = JVal.jstr (pyStrCell r.ids) ∧
    j.names = JVal.jstr (pyStrCell r.names) ∧
    j.genres = cellToJVal r.genres ∧
    j.first_release = JVal.jstr (pyStrCell r.first_release) ∧
    j.last_release = JVal.jstr (pyStrCell r.last_release) ∧
    j.playlists_found = JVal.jstr (pyStrCell r.playlists_found) ∧
    j.feat_track_ids = cellToJVal r.feat_track_ids := by
  cases h1 : intCoerce r.monthly_listeners with
  | error e => simp [serializeRecord, h1, bind, Except.bind] at h
  | ok ml =>
    cases h2 : intCoerce r.popularity with
    | error e => simp [serializeRecord, h1, h2, bind, Except.bind] at h
    | ok pop =>
      cases h3 : intCoerce r.followers with
      | error e => simp [serializeRecord, h1, h2, h3, bind, Except.bind] at h
      | ok fol =>
        cases h4 : intCoerce r.num_releases with
        | error e =>
            simp [serializeRecord, h1, h2, h3, h4, bind, Except.bind] at h
        | ok nrel =>
          cases h5 : intCoerce r.num_tracks with
          | error e =>
              simp [serializeRecord, h1, h2, h3, h4, h5, bind,
                Except.bind] at h
          | ok ntr =>
              simp only [serializeRecord, h1, h2, h3, h4, h5, bind,
                Except.bind, Except.ok.injEq] at h
              subst h
              exact ⟨rfl, rfl, rfl, rfl, rfl, rfl, rfl, rfl, rfl, rfl, rfl,
                rfl, rfl⟩

theorem intCoerce_na_ok (v : JVal) (h : intCoerce Cell.na = Except.ok v) :
    v = JVal.jint 0 := by
  simp [intCoerce] at h
  exact h.symm

/-- Claim C6, amended: at serialization time the five `int(...)`-coerced
numeric fields (`monthly_listeners`, `popularity`, `followers`,
`num_releases`, `num_tracks`) are emitted as the integer 0 when their
value is missing; `first_release` and `last_release` are instead
emitted through Python `str`, so a missing value there becomes the
string nan, never the integer 0. -/
theorem serialize_numeric_defaults (r : Row) (j : JRecord)
    (h : serializeRecord r = Except.ok j) :
    (r.monthly_listeners = Cell.na → j.monthly_listeners = JVal.jint 0) ∧
    (r.popularity = Cell.na → j.popularity = JVal.jint 0) ∧
    (r.followers = Cell.na → j.followers = JVal.jint 0) ∧
    (r.num_releases = Cell.na → j.num_releases = JVal.jint 0) ∧
    (r.num_tracks = Cell.na → j.num_tracks = JVal.jint 0) ∧
    j.first_release = JVal.jstr (pyStrCell r.first_release) ∧
    j.last_release = JVal.jstr (pyStrCell r.last_release) ∧
    (r.first_release = Cell.na → j.first_release = JVal.jstr "nan") ∧
    (r.last_release = Cell.na → j.last_release = JVal.jstr "nan") := by
  obtain ⟨h1, h2, h3, h4, h5, _, _, _, _, hfr, hlr, _, _⟩ :=
    serializeRecord_ok_fields r j h
  refine ⟨?_, ?_, ?_, ?_, ?_, hfr, hlr, ?_, ?_⟩
  · intro hna; rw [hna] at h1; exact intCoerce_na_ok _ h1
  · intro hna; rw [hna] at h2; exact intCoerce_na_ok _ h2
  · intro hna; rw [hna] at h3; exact intCoerce_na_ok _ h3
  · intro hna; rw [hna] at h4; exact intCoerce_na_ok _ h4
  · intro hna; rw [hna] at h5; exact intCoerce_na_ok _ h5
  · intro hna; rw [hfr, hna]; rfl
  · intro hna; rw [hlr, hna]; rfl

/-- Witness for C6 on a record with missing `monthly_listeners`,
`first_release` and `last_release`. -/
theorem serialize_numeric_defaults_w :
    (exRowC6.monthly_listeners = Cell.na →
        exJRecC6.monthly_listeners = JVal.jint 0) ∧
    (exRowC6.popularity = Cell.na → exJRecC6.popularity = JVal.jint 0) ∧
    (exRowC6.followers = Cell.na → exJRecC6.followers = JVal.jint 0) ∧
    (exRowC6.num_releases = Cell.na → exJRecC6.num_releases = JVal.jint 0) ∧
    (exRowC6.num_tracks = Cell.na → exJRecC6.num_tracks = JVal.jint 0) ∧
    exJRecC6.first_release = JVal.jstr (pyStrCell exRowC6.first_release) ∧
    exJRecC6.last_release = JVal.jstr (pyStrCell exRowC6.last_release) ∧
    (exRowC6.first_release = Cell.na →
        exJRecC6.first_release = JVal.jstr "nan") ∧
    (exRowC6.last_release = Cell.na →
        exJRecC6.last_release = JVal.jstr "nan") :=
  serialize_numeric_defaults exRowC6 exJRecC6 rfl

/-- Counterexample for C6 as stated: for a record with missing
`first_release` (and `last_release`) the emitted value is the string
nan produced by `str(row[c])` at src/main.py lines 267-268, not the
integer 0 the claim demands for every numeric field. -/
theorem serialize_release_year_cex :
    serializeRecord exRowC6 = Except.ok exJRecC6 ∧
    exRowC6.first_release = Cell.na ∧
    exJRecC6.first_release = JVal.jstr "nan" ∧
    exJRecC6.first_release ≠ JVal.jint 0 ∧
    exJRecC6.last_release ≠ JVal.jint 0 :=
  ⟨rfl, rfl, rfl, by decide, by decide⟩

/-- Claim C7, amended: a missing source file is fatal
(`FileNotFoundError` propagated by `read_csv`), and a header-only file
loads as the empty record sequence; but a present, zero-byte file is
not an empty sequence — pandas raises `EmptyDataError`, which the
except-clause of lines 144-146 re-raises as a fatal error. -/
theorem read_csv_contract (cols : List String) (rows : List Row) :
    read_csv FileState.absent = Except.error PErr.sourceNotFound ∧
    read_csv (FileState.present cols []) = Except.ok (cols, []) ∧
    read_csv (FileState.present cols rows) = Except.ok (cols, rows) ∧
    read_csv FileState.empty = Except.error PErr.emptyData :=
  ⟨rfl, rfl, rfl, rfl⟩

/-- Counterexample for C7 as stated: the claim says a present but
zero-byte file yields an empty record sequence rather than an error,
but `pd.read_csv` raises `EmptyDataError` there and `read_csv`
re-raises it, so the result is an error, not a success. -/
theorem read_csv_empty_file_cex :
    read_csv FileState.empty = Except.error PErr.emptyData ∧
    exceptIsOk (read_csv FileState.empty) = false :=
  ⟨rfl, rfl⟩

/-- Claim C9: the JSON artifact is a top-level object whose `row_count`
is the clean-set cardinality and whose `data` is the in-order
serialization of the clean records, with list-valued `genres` and
`feat_track_ids` cells emitted as structured arrays; the artifacts are
named `/target/data_<token>.json` and
`/target/data_reject_<token>.csv`. -/
theorem backup_artifacts_shape (clean dup : List Row) (token : String)
    (arts : Artifacts)
    (h : createBackupFiles clean dup token = Except.ok arts) :
    arts.jsonPath = "/target/data_" ++ token ++ ".json" ∧
    arts.csvPath = "/target/data_reject_" ++ token ++ ".csv" ∧
    arts.doc.row_count = clean.length ∧
    serializeCleanList clean = Except.ok arts.doc.data ∧
    arts.doc.data.length = clean.length ∧
    (∀ r jr, serializeRecord r = Except.ok jr →
      (∀ xs, r.genres = Cell.lst xs → jr.genres = JVal.jarr xs) ∧
      (∀ xs, r.feat_track_ids = Cell.lst xs →
          jr.feat_track_ids = JVal.jarr xs)) := by
  cases hser : serializeCleanList clean with
  | error e => simp [createBackupFiles, hser, bind, Except.bind] at h
  | ok js =>
      simp only [createBackupFiles, hser, bind, Except.bind,
        Except.ok.injEq] at h
      subst h
      refine ⟨rfl, rfl, rfl, rfl, serializeCleanList_length clean js hser, ?_⟩
      intro r jr hjr
      obtain ⟨_, _, _, _, _, _, _, _, hg, _, _, _, hft⟩ :=
        serializeRecord_ok_fields r jr hjr
      constructor
      · intro xs hxs
        rw [hg, hxs]
        rfl
      · intro xs hxs
        rw [hft, hxs]
        rfl

/-- Witness for C9: a one-record clean set, empty rejected set and a
concrete run token. -/
theorem backup_artifacts_shape_w :
    artsEx.jsonPath = "/target/data_" ++ "20240101000000" ++ ".json" ∧
    artsEx.csvPath = "/target/data_reject_" ++ "20240101000000" ++ ".csv" ∧
    artsEx.doc.row_count = [exRowC6].length ∧
    serializeCleanList [exRowC6] = Except.ok artsEx.doc.data ∧
    artsEx.doc.data.length = [exRowC6].length ∧
    (∀ r jr, serializeRecord r = Except.ok jr →
      (∀ xs, r.genres = Cell.lst xs → jr.genres = JVal.jarr xs) ∧
      (∀ xs, r.feat_track_ids = Cell.lst xs →
          jr.feat_track_ids = JVal.jarr xs)) :=
  backup_artifacts_shape [exRowC6] [] "20240101000000" artsEx rfl

/-- Claim C10, amended: `clean_data` is not free of effects on the
loader-produced dataset — the column assignments of lines 181-193
rewrite the caller's frame in place, so after the call the caller's
rows hold the normalized `dates`, `names`, `genres`, `feat_track_ids`
and `playlists_found` values; only `ids` and the numeric passthrough
columns keep their raw cell values, and the returned partitions are
copies of the mutated rows. -/
theorem clean_data_frame_columns (df : List Row) :
    (clean_data df).1.length = df.length ∧
    (clean_data df).1.map Row.ids = df.map Row.ids ∧
    (clean_data df).1.map Row.monthly_listeners
        = df.map Row.monthly_listeners ∧
    (clean_data df).1.map Row.popularity = df.map Row.popularity ∧
    (clean_data df).1.map Row.followers = df.map Row.followers ∧
    (clean_data df).1.map Row.first_release = df.map Row.first_release ∧
    (clean_data df).1.map Row.last_release = df.map Row.last_release ∧
    (clean_data df).1.map Row.num_releases = df.map Row.num_releases ∧
    (clean_data df).1.map Row.num_tracks = df.map Row.num_tracks ∧
    (clean_data df).1.map Row.dates
        = df.map (fun r => normDateCell r.dates) ∧
    (clean_data df).1.map Row.names
        = df.map (fun r => normNameCell r.names) ∧
    (clean_data df).1.map Row.genres
        = df.map (fun r => Cell.lst (parse_genres r.genres).1) ∧
    (clean_data df).1.map Row.feat_track_ids
        = df.map (fun r => Cell.lst (parse_track_ids r.feat_track_ids).valid) ∧
    (clean_data df).1.map Row.playlists_found
        = df.map (fun r => normPlaylistsCell r.playlists_found) ∧
    (clean_data df).2 = partitionByIds ((clean_data df).1) := by
  refine ⟨?_, ?_, ?_, ?_, ?_, ?_, ?_, ?_, ?_, ?_, ?_, ?_, ?_, ?_, rfl⟩ <;>
    simp [clean_data, List.map_map, Function.comp, normalizeRow]

/-- Counterexample for C10 as stated: the caller's raw dataset does not
keep its untransformed cell values — after `clean_data` returns, the
single raw row below (lowercase name, unparsed genre text) has been
rewritten in place by the column assignments of lines 181-193, so the
caller-visible frame differs from the original raw dataset. -/
theorem clean_data_mutates_cex :
    (clean_data [mkRow (Cell.str "2024-01-01") (Cell.str "1")
        (Cell.str "artist one")]).1
      ≠ [mkRow (Cell.str "2024-01-01") (Cell.str "1")
          (Cell.str "artist one")] := by
  decide

/-- Claim C3, amended: `run_pipeline` raises the fatal errors the claim
lists (store connection failure, source not found, required column
absent, store write rejected), but on success it returns None — the
clean and rejected counts are only computed for logging by
`get_table_counts` (as cumulative table totals) and its return value is
discarded at line 342, so no count pair is returned to the caller. -/
theorem run_pipeline_contract (env : Env) :
    (env.dbReachable = false →
        runPipeline env = Except.error PErr.connectionFailed) ∧
    (env.dbReachable = true → env.file = FileState.absent →
        runPipeline env = Except.error PErr.sourceNotFound) ∧
    (∀ cols rows c, env.dbReachable = true →
        env.file = FileState.present cols rows →
        firstMissingCol cols = some c →
        runPipeline env = Except.error (PErr.missingColumn c)) ∧
    (∀ cols rows, env.dbReachable = true →
        env.file = FileState.present cols rows →
        firstMissingCol cols = none → env.cleanInsertOk = false →
        runPipeline env = Except.error PErr.cleanInsertRejected) ∧
    (∀ cols rows arts, env.dbReachable = true →
        env.file = FileState.present cols rows →
        firstMissingCol cols = none → env.cleanInsertOk = true →
        env.rejectInsertOk = true →
        createBackupFiles (clean_data rows).2.1 (clean_data rows).2.2
            env.token = Except.ok arts →
        runPipeline env = Except.ok none) := by
  refine ⟨?_, ?_, ?_, ?_, ?_⟩
  · intro hdb
    simp [runPipeline, hdb]
  · intro hdb hfile
    simp [runPipeline, hdb, hfile, read_csv]
  · intro cols rows c hdb hfile hmiss
    simp [runPipeline, hdb, hfile, read_csv, cleanDataStep, hmiss]
  · intro cols rows hdb hfile hmiss hins
    simp [runPipeline, hdb, hfile, read_csv, cleanDataStep, hmiss, hins]
  · intro cols rows arts hdb hfile hmiss hins1 hins2 hbak
    simp [runPipeline, hdb, hfile, read_csv, cleanDataStep, hmiss, hins1,
      hins2, hbak]

/-- Witness for C3 on an environment whose database is unreachable. -/
theorem run_pipeline_contract_w :
    runPipeline envOffEx = Except.error PErr.connectionFailed :=
  (run_pipeline_contract envOffEx).1 rfl

/-- Counterexample for C3 as stated: on a fully healthy run whose input
partitions into 2 clean and 1 rejected record, `run_pipeline` returns
None (no value), not the pair of this run's clean and rejected
cardinalities the claim promises. -/
theorem run_pipeline_no_counts_cex :
    runPipeline envOkEx = Except.ok none ∧
    runPipeline envOkEx ≠ Except.ok (some (2, 1)) := by
  have h : runPipeline envOkEx = Except.ok none := rfl
  refine ⟨h, ?_⟩
  rw [h]
  intro hcontra
  exact Option.noConfusion (Except.ok.inj hcontra)
